import Mathlib

/-!
Shallow embedding of the relationship lifecycle of the messaging-app backend
(src/relationship/relationship.service.ts, class RelationshipService).

User ids and record ids are strings. The document store is modelled as a
state record holding the list of existing user ids (the user directory),
the relationship records, and the conversation and membership records
created by the collaborators invoked from confirmFriendship. Each service
method is a function from a state (plus its arguments) to the successor
state paired with a result: either a value or a typed error mirroring the
NestJS exception the method throws.

JavaScript string comparison (the `<=` used for canonical pair ordering)
and `toUpperCase`/`toLowerCase` are embedded as executable functions over
the character list of a string.
-/

namespace RelationshipSpec

/-- Lexicographic order on character lists by code point, embedding the
JavaScript `<=` comparison used for canonical pair ordering. -/
def charListLe : List Char → List Char → Bool
  | [], _ => true
  | _ :: _, [] => false
  | a :: as, b :: bs =>
    if a.toNat < b.toNat then true
    else if b.toNat < a.toNat then false
    else charListLe as bs

/-- JavaScript string `<=`, lexicographic by code point. -/
def strLe (a b : String) : Bool := charListLe a.data b.data

/-- JavaScript `toUpperCase`, per-character (ASCII). -/
def strToUpper (s : String) : String := ⟨s.data.map Char.toUpper⟩

/-- JavaScript `toLowerCase`, per-character (ASCII). -/
def strToLower (s : String) : String := ⟨s.data.map Char.toLower⟩

/-- The relationship status enum (entities/relationship.enum.ts). -/
inductive RelationshipStatus where
  | REQUEST_USER_A
  | REQUEST_USER_B
  | FRIENDS
  | AWAY
  | BLOCKED_USER_A
  | BLOCKED_USER_B
deriving DecidableEq

/-- The string value a status is stored under in the database (mongoose
string enum), used by the status filter of findAll. -/
def statusString : RelationshipStatus → String
  | .REQUEST_USER_A => "REQUEST_USER_A"
  | .REQUEST_USER_B => "REQUEST_USER_B"
  | .FRIENDS => "FRIENDS"
  | .AWAY => "AWAY"
  | .BLOCKED_USER_A => "BLOCKED_USER_A"
  | .BLOCKED_USER_B => "BLOCKED_USER_B"

/-- A stored relationship document. `blockedAt` is the nullable block
timestamp, `privateConversation` the nullable conversation reference. -/
structure Relationship where
  id : String
  userA : String
  userB : String
  status : RelationshipStatus
  blockedAt : Option Nat
  privateConversation : Option String
deriving DecidableEq

/-- A conversation record as produced by the conversation collaborator. -/
structure Conversation where
  id : String
  name : String
  description : String
  createdBy : String
  host : String
deriving DecidableEq

/-- Membership role enum (membership-role.enum.ts). -/
inductive MembershipRole where
  | HOST
  | MEMBER
deriving DecidableEq

/-- A membership record as produced by the membership collaborator. -/
structure Membership where
  user : String
  conversation : String
  role : MembershipRole
deriving DecidableEq

/-- Observable side effects, recorded in order of occurrence. -/
inductive Event where
  | conversationCreated (id : String)
  | membershipCreated (user conversation : String) (role : MembershipRole)
  | relationshipUpdated (id : String)
deriving DecidableEq

/-- The store state: user directory, relationship collection, collaborator
collections, and the trace of side effects performed so far. -/
structure State where
  users : List String
  relationships : List Relationship
  conversations : List Conversation
  memberships : List Membership
  trace : List Event
deriving DecidableEq

/-- The typed failures thrown by the service: BadRequestException (the
ValidationError / ConflictError of the spec taxonomy), NotFoundException,
UnauthorizedException and InternalServerErrorException. -/
inductive AppError where
  | badRequest (msg : String)
  | notFound (msg : String)
  | unauthorized (msg : String)
  | internalServerError (msg : String)
deriving DecidableEq

/-- Result of a service call: a value or a typed error. -/
inductive SvcResult (α : Type) where
  | ok (val : α)
  | error (err : AppError)
deriving DecidableEq

/-- Modelled from the spec: the user directory collaborator,
`findById(id) -> User | NotFound` (spec section 6), used purely for
existence checks. A user record is identified with its id string. -/
def userService_findById (st : State) (id : String) : Option String :=
  if id ∈ st.users then some id else none

/-- CreateRelationshipDto: the creation payload. -/
structure CreateRelationshipDto where
  userA : String
  userB : String
  status : RelationshipStatus
deriving DecidableEq

/-- BlockUserDto: the block payload. -/
structure BlockUserDto where
  blockedBy : String
  targetUser : String
deriving DecidableEq

/-- Modelled from the spec: UpdateRelationshipDto, a generic partial field
patch (spec section 4.2); the DTO source is not in the repository snapshot.
A `some` field is written over the record, a `none` field is left alone. -/
structure UpdateRelationshipDto where
  status : Option RelationshipStatus
  blockedAt : Option (Option Nat)
  privateConversation : Option (Option String)
deriving DecidableEq

/-- Applying an UpdateRelationshipDto patch to a stored record, the mongoose
`findByIdAndUpdate(id, { ...dto })` set semantics. -/
def applyUpdateDto (dto : UpdateRelationshipDto) (r : Relationship) : Relationship :=
  { r with
      status := dto.status.getD r.status,
      blockedAt := dto.blockedAt.getD r.blockedAt,
      privateConversation := dto.privateConversation.getD r.privateConversation }

/-- RelationshipService.findById: `findOne({ _id: id, blockedAt: null })`.
Returns the record with the given id only when its block timestamp is null. -/
def findById (st : State) (id : String) : Option Relationship :=
  st.relationships.find? (fun r => decide (r.id = id) && r.blockedAt.isNone)

/-- RelationshipService.findByUserIds: canonicalizes the pair ordering with
the JavaScript `<=` comparison, then `findOne` on the ordered pair. No
blockedAt filter is applied here. -/
def findByUserIds (st : State) (userAId userBId : String) : Option Relationship :=
  if strLe userAId userBId then
    st.relationships.find? (fun r => decide (r.userA = userAId) && decide (r.userB = userBId))
  else
    st.relationships.find? (fun r => decide (r.userA = userBId) && decide (r.userB = userAId))

/-- The duplicate check of RelationshipService.create:
`existedRelationship && existedRelationship.status !== AWAY`. -/
def conflictExists (st : State) (userAId userBId : String) : Bool :=
  match findByUserIds st userAId userBId with
  | some existed => decide (existed.status ≠ RelationshipStatus.AWAY)
  | none => false

/-- RelationshipService.create (lines 41-95): validates distinctness,
existence of both users, absence of a non-AWAY record for the pair and that
the initial status is one of the two request states; then persists the
record with the user slots put in canonical JavaScript string order and the
payload status stored unchanged, and returns `findById` of the new id.
`newId` stands for the database-assigned document id. -/
def create (st : State) (requestedUserId : String) (payload : CreateRelationshipDto)
    (newId : String) : State × SvcResult (Option Relationship) :=
  if payload.userA = payload.userB then
    (st, .error (.badRequest "User A and user B must be different"))
  else
    match userService_findById st payload.userA with
    | none => (st, .error (.badRequest "User A not found"))
    | some userAId =>
      match userService_findById st payload.userB with
      | none => (st, .error (.badRequest "User B not found"))
      | some userBId =>
        if conflictExists st userAId userBId then
          (st, .error (.badRequest "Relationship existed"))
        else if payload.status ≠ RelationshipStatus.REQUEST_USER_A ∧
            payload.status ≠ RelationshipStatus.REQUEST_USER_B then
          (st, .error (.badRequest "Relationship status must be REQUEST_USER_A or REQUEST_USER_B"))
        else
          let newRecord : Relationship :=
            if strLe payload.userA payload.userB then
              { id := newId, userA := userAId, userB := userBId,
                status := payload.status, blockedAt := none, privateConversation := none }
            else
              { id := newId, userA := userBId, userB := userAId,
                status := payload.status, blockedAt := none, privateConversation := none }
          let st' : State := { st with relationships := newRecord :: st.relationships }
          (st', .ok (findById st' newId))

/-- RelationshipService.findMyRelationship: fetch by id (blocked records
invisible), NotFound when absent, Unauthorized when the requesting user is
in neither slot. -/
def findMyRelationship (st : State) (relationshipId requestedUser : String) :
    SvcResult Relationship :=
  match findById st relationshipId with
  | none => .error (.notFound "Relationship not found")
  | some relationship =>
    if relationship.userA = requestedUser ∨ relationship.userB = requestedUser then
      .ok relationship
    else
      .error (.unauthorized "Unauthorized user")

/-- The sort key of findAll: the stored field named by `sortBy`, as a
string; an unknown field name sorts all records equal. -/
def fieldVal (r : Relationship) (name : String) : String :=
  if name = "_id" then r.id
  else if name = "userA" then r.userA
  else if name = "userB" then r.userB
  else if name = "status" then statusString r.status
  else ""

/-- The record comparison of the findAll sort stage:
`{ [sortBy]: orderBy.toLowerCase() === 'asc' ? 1 : -1 }`. -/
def relSortLe (sortBy orderBy : String) (x y : Relationship) : Bool :=
  if strToLower orderBy = "asc" then strLe (fieldVal x sortBy) (fieldVal y sortBy)
  else strLe (fieldVal y sortBy) (fieldVal x sortBy)

/-- Stable insertion into a sorted list. -/
def insertSorted (le : Relationship → Relationship → Bool) (x : Relationship) :
    List Relationship → List Relationship
  | [] => [x]
  | y :: ys => if le x y then x :: y :: ys else y :: insertSorted le x ys

/-- Stable sort of the filtered records. -/
def sortRels (le : Relationship → Relationship → Bool) :
    List Relationship → List Relationship
  | [] => []
  | x :: xs => insertSorted le x (sortRels le xs)

/-- The paginated listing shape returned by findAll. -/
structure FindAllResult where
  data : List Relationship
  page : Nat
  size : Nat
  count : Nat
deriving DecidableEq

/-- RelationshipService.findAll (lines 154-202): records where the
participant matches either slot, the stored status equals the uppercased
filter, and blockedAt is null; sorted by the requested field and sliced
with `skip((page - 1) * size)` and `limit(size)`. -/
def findAll (st : State) (userId : String) (page size : Nat)
    (sortBy orderBy status : String) : FindAllResult :=
  let filtered := st.relationships.filter (fun r =>
    (decide (r.userA = userId) || decide (r.userB = userId)) &&
    decide (statusString r.status = strToUpper status) &&
    r.blockedAt.isNone)
  let sorted := sortRels (relSortLe sortBy orderBy) filtered
  let data := (sorted.drop ((page - 1) * size)).take size
  { data := data, page := page, size := size, count := data.length }

/-- The mongoose `findByIdAndUpdate(id, fields)` step: every stored record
with the given id is rewritten by `f`, and the update is recorded in the
trace. -/
def updateRelById (st : State) (id : String) (f : Relationship → Relationship) : State :=
  { st with
      relationships := st.relationships.map (fun r => if r.id = id then f r else r),
      trace := st.trace ++ [Event.relationshipUpdated id] }

/-- Modelled from the spec: the conversation collaborator,
`create({name, description, createdBy, host}) -> Conversation{id}` (spec
section 6); its source is not in the repository snapshot. It appends the
conversation record, records the event and never fails. `newConvId` stands
for the database-assigned conversation id. -/
def conversationService_create (st : State)
    (name description createdBy host newConvId : String) : State × Conversation :=
  let c : Conversation :=
    { id := newConvId, name := name, description := description,
      createdBy := createdBy, host := host }
  ({ st with
      conversations := c :: st.conversations,
      trace := st.trace ++ [Event.conversationCreated newConvId] }, c)

/-- Modelled from the spec: the membership collaborator,
`create(requesterId, {user, conversation, role}) -> Membership` (spec
section 6); its source is not in the repository snapshot. It appends the
membership record, records the event and never fails. -/
def membershipService_create (st : State) (requesterId : String)
    (user conversation : String) (role : MembershipRole) : State × Membership :=
  let m : Membership := { user := user, conversation := conversation, role := role }
  ({ st with
      memberships := m :: st.memberships,
      trace := st.trace ++ [Event.membershipCreated user conversation role] }, m)

/-- Fault injection for the three collaborator calls inside the try block
of confirmFriendship: a true flag makes that call throw before performing
its effect, which the catch clause turns into InternalServerError. -/
structure FaultSpec where
  convFails : Bool
  memAFails : Bool
  memBFails : Bool
deriving DecidableEq

/-- The all-calls-succeed fault specification. -/
def noFaults : FaultSpec := { convFails := false, memAFails := false, memBFails := false }

/-- RelationshipService.confirmFriendship (lines 204-271), with fault
injection on the collaborator calls: NotFound when the id resolves to no
visible record, BadRequest when already FRIENDS; otherwise create the
private conversation named from the relationship id, create the membership
of userA then of userB (HOST exactly for the participant equal to the
requesting user), then update the relationship to FRIENDS with the
conversation reference, and return `findById` of the updated id. A failing
call stops the sequence; effects already performed are kept. -/
def confirmFriendshipF (fs : FaultSpec) (st : State)
    (requestedUserId relationshipId newConvId : String) :
    State × SvcResult (Option Relationship) :=
  match findById st relationshipId with
  | none => (st, .error (.notFound "Relationship not found"))
  | some relationship =>
    if relationship.status = RelationshipStatus.FRIENDS then
      (st, .error (.badRequest "Users are already friends"))
    else if fs.convFails then
      (st, .error (.internalServerError "Failed to update relationship"))
    else
      let convName := "Private conversation [" ++ relationshipId ++ "]"
      let step1 := conversationService_create st convName convName
        requestedUserId requestedUserId newConvId
      let st1 := step1.1
      let privateConversation := step1.2
      if fs.memAFails then
        (st1, .error (.internalServerError "Failed to update relationship"))
      else
        let st2 := (membershipService_create st1 requestedUserId relationship.userA
          privateConversation.id
          (if relationship.userA = requestedUserId then MembershipRole.HOST
           else MembershipRole.MEMBER)).1
        if fs.memBFails then
          (st2, .error (.internalServerError "Failed to update relationship"))
        else
          let st3 := (membershipService_create st2 requestedUserId relationship.userB
            privateConversation.id
            (if relationship.userB = requestedUserId then MembershipRole.HOST
             else MembershipRole.MEMBER)).1
          let st4 := updateRelById st3 relationshipId (fun r =>
            { r with
                privateConversation := some privateConversation.id,
                status := RelationshipStatus.FRIENDS })
          (st4, .ok (findById st4 relationshipId))

/-- RelationshipService.confirmFriendship with every collaborator call
succeeding. -/
def confirmFriendship (st : State) (requestedUserId relationshipId newConvId : String) :
    State × SvcResult (Option Relationship) :=
  confirmFriendshipF noFaults st requestedUserId relationshipId newConvId

/-- RelationshipService.update (lines 273-293): existence check through
findById (blocked records invisible), then a generic field patch, then
`findById` of the updated id. -/
def update (st : State) (id : String) (dto : UpdateRelationshipDto)
    (requestedUser : String) : State × SvcResult (Option Relationship) :=
  match findById st id with
  | none => (st, .error (.notFound "Relationship not found"))
  | some _ =>
    let st' := updateRelById st id (applyUpdateDto dto)
    (st', .ok (findById st' id))

/-- RelationshipService.blockUser (lines 295-332): blocker and target must
exist, the blocker must be the requesting user, the pair must have a
record, and the record must not carry a block timestamp; then only the
status is rewritten, to BLOCKED_USER_A when the blocker holds the canonical
userA slot and to BLOCKED_USER_B otherwise, and `findById` of the record id
is returned. -/
def blockUser (st : State) (requestedUser : String) (dto : BlockUserDto) :
    State × SvcResult (Option Relationship) :=
  match userService_findById st dto.blockedBy with
  | none => (st, .error (.notFound "Block by user not found"))
  | some _ =>
    if dto.blockedBy ≠ requestedUser then
      (st, .error (.unauthorized "Unauthorized user"))
    else
      match userService_findById st dto.targetUser with
      | none => (st, .error (.notFound "Target user not found"))
      | some _ =>
        match findByUserIds st dto.blockedBy dto.targetUser with
        | none => (st, .error (.notFound "Relationship not found"))
        | some relationship =>
          if relationship.blockedAt.isSome then
            (st, .error (.badRequest "Relationship is already blocked"))
          else
            let status :=
              if dto.blockedBy = relationship.userA then RelationshipStatus.BLOCKED_USER_A
              else RelationshipStatus.BLOCKED_USER_B
            let st' := updateRelById st relationship.id (fun r => { r with status := status })
            (st', .ok (findById st' relationship.id))

/-- The spec reading of who initiated a request: REQUEST_USER_A means the
stored userA initiated toward userB, and symmetrically for B (spec section
3). Stated from the words of the spec, for comparison with the stored
behavior of create. -/
def initiatorOf (r : Relationship) : Option String :=
  match r.status with
  | .REQUEST_USER_A => some r.userA
  | .REQUEST_USER_B => some r.userB
  | _ => none

/-! Helper lemmas about the embedded string order and the store. -/

theorem charListLe_total (as bs : List Char) :
    charListLe as bs = true ∨ charListLe bs as = true := by
  induction as generalizing bs with
  | nil => left; rfl
  | cons a as ih =>
    cases bs with
    | nil => right; rfl
    | cons b bs =>
      by_cases h1 : a.toNat < b.toNat
      · left; simp [charListLe, h1]
      · by_cases h2 : b.toNat < a.toNat
        · right; simp [charListLe, h2]
        · rcases ih bs with h | h
          · left; simp [charListLe, h1, h2, h]
          · right; simp [charListLe, h1, h2, h]

theorem strLe_total (a b : String) : strLe a b = true ∨ strLe b a = true :=
  charListLe_total a.data b.data

theorem userService_findById_of_mem (st : State) (id : String) (h : id ∈ st.users) :
    userService_findById st id = some id := by
  simp [userService_findById, h]

theorem userService_findById_some (st : State) (id v : String)
    (h : userService_findById st id = some v) : v = id := by
  unfold userService_findById at h
  split at h
  · exact (Option.some.inj h).symm
  · exact absurd h (by simp)

theorem find?_unique {α : Type} (p : α → Bool) (l : List α) (a : α)
    (hmem : a ∈ l) (hp : p a = true) (huniq : ∀ x ∈ l, p x = true → x = a) :
    l.find? p = some a := by
  induction l with
  | nil => cases hmem
  | cons x xs ih =>
    by_cases hx : p x = true
    · rw [List.find?_cons_of_pos _ hx]
      exact congrArg some (huniq x (List.mem_cons_self x xs) hx)
    · rw [List.find?_cons_of_neg _ (by simpa using hx)]
      apply ih
      · rcases List.mem_cons.mp hmem with h | h
        · exact absurd (h ▸ hp) hx
        · exact h
      · intro y hy hpy
        exact huniq y (List.mem_cons_of_mem _ hy) hpy

theorem find?_map_by_id (l : List Relationship) (rid : String)
    (f : Relationship → Relationship) (rel : Relationship)
    (hf : l.find? (fun r => decide (r.id = rid) && r.blockedAt.isNone) = some rel)
    (hid : ∀ r, (f r).id = r.id) (hba : ∀ r, (f r).blockedAt = r.blockedAt) :
    (l.map (fun r => if r.id = rid then f r else r)).find?
      (fun r => decide (r.id = rid) && r.blockedAt.isNone) = some (f rel) := by
  induction l with
  | nil => simp [List.find?] at hf
  | cons x xs ih =>
    by_cases hpx : (decide (x.id = rid) && x.blockedAt.isNone) = true
    · rw [List.find?_cons_of_pos (p := fun (r : Relationship) => decide (r.id = rid) && r.blockedAt.isNone)
        _ hpx] at hf
      have hrel : x = rel := Option.some.inj hf
      subst hrel
      have hxid : x.id = rid := by
        have := (Bool.and_eq_true _ _).mp hpx
        exact of_decide_eq_true this.1
      have hpfx : (decide ((f x).id = rid) && (f x).blockedAt.isNone) = true := by
        rw [hid, hba]; exact hpx
      rw [List.map_cons, if_pos hxid,
        List.find?_cons_of_pos (p := fun (r : Relationship) => decide (r.id = rid) && r.blockedAt.isNone)
          _ hpfx]
    · rw [List.find?_cons_of_neg _ (by simpa using hpx)] at hf
      simp only [List.map]
      have hhead : ¬ ((fun r => decide (r.id = rid) && r.blockedAt.isNone)
          (if x.id = rid then f x else x) = true) := by
        by_cases hxid : x.id = rid
        · simp only [if_pos hxid]
          intro hcon
          apply hpx
          have := (Bool.and_eq_true _ _).mp hcon
          rw [hid, hba] at this
          exact (Bool.and_eq_true _ _).mpr this
        · simp only [if_neg hxid]
          intro hcon
          exact hpx hcon
      rw [List.find?_cons_of_neg _ (by simpa using hhead)]
      exact ih hf

theorem findById_updateRelById (st : State) (rid : String)
    (f : Relationship → Relationship) (rel : Relationship)
    (hf : findById st rid = some rel)
    (hid : ∀ r, (f r).id = r.id) (hba : ∀ r, (f r).blockedAt = r.blockedAt) :
    findById (updateRelById st rid f) rid = some (f rel) :=
  find?_map_by_id st.relationships rid f rel hf hid hba

theorem findById_of_unique (st : State) (rel : Relationship)
    (hmem : rel ∈ st.relationships) (hnb : rel.blockedAt = none)
    (huniq : ∀ r ∈ st.relationships, r.id = rel.id → r = rel) :
    findById st rel.id = some rel := by
  apply find?_unique
  · exact hmem
  · simp [hnb]
  · intro x hx hpx
    have := (Bool.and_eq_true _ _).mp hpx
    exact huniq x hx (of_decide_eq_true this.1)

theorem findByUserIds_mem (st : State) (a b : String) (rel : Relationship)
    (h : findByUserIds st a b = some rel) : rel ∈ st.relationships := by
  unfold findByUserIds at h
  split at h <;> exact List.mem_of_find?_eq_some h

/-! Concrete states used by the witnesses and counterexamples. -/

/-- Two registered users and an empty relationship store. -/
def sampleUsersState : State :=
  { users := ["u1", "u2"], relationships := [], conversations := [],
    memberships := [], trace := [] }

/-- Two registered users with a pending request record between them. -/
def pendingPairState : State :=
  { users := ["u1", "u2"],
    relationships := [⟨"r1", "u1", "u2", .REQUEST_USER_A, none, none⟩],
    conversations := [], memberships := [], trace := [] }

/-- The state reached from `pendingPairState` by the first blockUser call. -/
def pendingPairStateBlockedOnce : State :=
  (blockUser pendingPairState "u1" ⟨"u1", "u2"⟩).1

/-! ### C1: create stores the pair in canonical order -/

/-- C1: for every pair of distinct, existing users given in either argument
order, a successful create appends a relationship record whose stored
userA and userB slots satisfy `stored.userA <= stored.userB` under the
JavaScript lexicographic string comparison. -/
theorem create_stores_canonical_order
    (st : State) (req : String) (payload : CreateRelationshipDto) (newId : String)
    (st' : State) (res : Option Relationship)
    (h : create st req payload newId = (st', .ok res)) :
    ∃ rec, st'.relationships = rec :: st.relationships ∧
      strLe rec.userA rec.userB = true := by
  unfold create at h
  split at h
  · exact absurd h (by simp)
  · split at h
    · exact absurd h (by simp)
    · rename_i userAId heqA
      split at h
      · exact absurd h (by simp)
      · rename_i userBId heqB
        split at h
        · exact absurd h (by simp)
        · split at h
          · exact absurd h (by simp)
          · have hA : userAId = payload.userA := userService_findById_some _ _ _ heqA
            have hB : userBId = payload.userB := userService_findById_some _ _ _ heqB
            subst hA; subst hB
            by_cases hle : strLe payload.userA payload.userB = true
            · simp only [hle, if_pos, Prod.mk.injEq] at h
              obtain ⟨h1, -⟩ := h
              subst h1
              exact ⟨_, rfl, hle⟩
            · simp only [hle, if_neg, Bool.false_eq_true, Prod.mk.injEq] at h
              obtain ⟨h1, -⟩ := h
              subst h1
              refine ⟨_, rfl, ?_⟩
              rcases strLe_total payload.userA payload.userB with ht | ht
              · exact absurd ht hle
              · exact ht

/-- Witness for C1 at a concrete swapped-order call. -/
theorem create_stores_canonical_order_witness :
    create sampleUsersState "u1" ⟨"u2", "u1", .REQUEST_USER_B⟩ "r1" =
      ({ sampleUsersState with
          relationships := [⟨"r1", "u1", "u2", .REQUEST_USER_B, none, none⟩] },
        .ok (some ⟨"r1", "u1", "u2", .REQUEST_USER_B, none, none⟩)) ∧
    ∃ rec, ({ sampleUsersState with
        relationships := [⟨"r1", "u1", "u2", .REQUEST_USER_B, none, none⟩] } :
          State).relationships = rec :: sampleUsersState.relationships ∧
      strLe rec.userA rec.userB = true :=
  ⟨by decide,
    create_stores_canonical_order sampleUsersState "u1" ⟨"u2", "u1", .REQUEST_USER_B⟩ "r1"
      { sampleUsersState with
          relationships := [⟨"r1", "u1", "u2", .REQUEST_USER_B, none, none⟩] }
      (some ⟨"r1", "u1", "u2", .REQUEST_USER_B, none, none⟩) (by decide)⟩

/-! ### C3: duplicate check allows re-creation only from AWAY -/

/-- C3: for a user pair whose canonical lookup already finds a record,
create fails with the ConflictError (BadRequest "Relationship existed")
when that record is not AWAY, and succeeds, appending a fresh record with
the payload status, when the record is AWAY and a valid request status is
supplied. -/
theorem create_existing_record_check
    (st : State) (req : String) (payload : CreateRelationshipDto) (newId : String)
    (r : Relationship)
    (hne : payload.userA ≠ payload.userB)
    (ha : payload.userA ∈ st.users) (hb : payload.userB ∈ st.users)
    (hex : findByUserIds st payload.userA payload.userB = some r) :
    (r.status ≠ RelationshipStatus.AWAY →
      create st req payload newId = (st, .error (.badRequest "Relationship existed"))) ∧
    (r.status = RelationshipStatus.AWAY →
      (payload.status = RelationshipStatus.REQUEST_USER_A ∨
        payload.status = RelationshipStatus.REQUEST_USER_B) →
      ∃ rec, rec.status = payload.status ∧
        create st req payload newId =
          ({ st with relationships := rec :: st.relationships }, .ok (some rec))) := by
  constructor
  · intro hst
    have hc : conflictExists st payload.userA payload.userB = true := by
      unfold conflictExists
      rw [hex]
      exact decide_eq_true hst
    unfold create
    simp only [if_neg hne, userService_findById_of_mem _ _ ha,
      userService_findById_of_mem _ _ hb, hc, if_true]
  · intro hst hps
    have hc : conflictExists st payload.userA payload.userB = false := by
      unfold conflictExists
      rw [hex]
      simp [hst]
    have hvalid : ¬(payload.status ≠ RelationshipStatus.REQUEST_USER_A ∧
        payload.status ≠ RelationshipStatus.REQUEST_USER_B) := by
      rcases hps with h | h <;> simp [h]
    unfold create
    simp only [if_neg hne, userService_findById_of_mem _ _ ha,
      userService_findById_of_mem _ _ hb, hc, Bool.false_eq_true, if_false, if_neg hvalid]
    by_cases hle : strLe payload.userA payload.userB = true
    · exact ⟨⟨newId, payload.userA, payload.userB, payload.status, none, none⟩, rfl,
        by simp [hle, findById]⟩
    · exact ⟨⟨newId, payload.userB, payload.userA, payload.status, none, none⟩, rfl,
        by simp [hle, findById]⟩

/-- Two registered users with an AWAY record between them. -/
def awayPairState : State :=
  { users := ["u1", "u2"],
    relationships := [⟨"r0", "u1", "u2", .AWAY, none, none⟩],
    conversations := [], memberships := [], trace := [] }

/-- Witness for C3 at a concrete AWAY pair. -/
theorem create_existing_record_check_witness :
    (("u1" : String) ≠ "u2" ∧ "u1" ∈ awayPairState.users ∧ "u2" ∈ awayPairState.users ∧
      findByUserIds awayPairState "u1" "u2" = some ⟨"r0", "u1", "u2", .AWAY, none, none⟩) ∧
    ((Relationship.status ⟨"r0", "u1", "u2", .AWAY, none, none⟩ ≠ RelationshipStatus.AWAY →
      create awayPairState "u1" ⟨"u1", "u2", .REQUEST_USER_A⟩ "r1" =
        (awayPairState, .error (.badRequest "Relationship existed"))) ∧
    (Relationship.status ⟨"r0", "u1", "u2", .AWAY, none, none⟩ = RelationshipStatus.AWAY →
      (CreateRelationshipDto.status ⟨"u1", "u2", .REQUEST_USER_A⟩ =
          RelationshipStatus.REQUEST_USER_A ∨
        CreateRelationshipDto.status ⟨"u1", "u2", .REQUEST_USER_A⟩ =
          RelationshipStatus.REQUEST_USER_B) →
      ∃ rec, rec.status = CreateRelationshipDto.status ⟨"u1", "u2", .REQUEST_USER_A⟩ ∧
        create awayPairState "u1" ⟨"u1", "u2", .REQUEST_USER_A⟩ "r1" =
          ({ awayPairState with relationships := rec :: awayPairState.relationships },
            .ok (some rec)))) :=
  ⟨⟨by decide, by decide, by decide, by decide⟩,
    create_existing_record_check awayPairState "u1" ⟨"u1", "u2", .REQUEST_USER_A⟩ "r1"
      ⟨"r0", "u1", "u2", .AWAY, none, none⟩
      (by decide) (by decide) (by decide) (by decide)⟩

/-! ### C7: creation may only start a request -/

/-- C7: when the payload status is neither REQUEST_USER_A nor
REQUEST_USER_B and the users are distinct, existing and free of a
conflicting record, create fails with the ValidationError and leaves the
store unchanged, so no record is persisted. -/
theorem create_rejects_invalid_initial_status
    (st : State) (req : String) (payload : CreateRelationshipDto) (newId : String)
    (hne : payload.userA ≠ payload.userB)
    (ha : payload.userA ∈ st.users) (hb : payload.userB ∈ st.users)
    (hnoconf : ∀ r, findByUserIds st payload.userA payload.userB = some r →
      r.status = RelationshipStatus.AWAY)
    (hs : payload.status ≠ RelationshipStatus.REQUEST_USER_A ∧
      payload.status ≠ RelationshipStatus.REQUEST_USER_B) :
    create st req payload newId =
      (st, .error
        (.badRequest "Relationship status must be REQUEST_USER_A or REQUEST_USER_B")) := by
  have hc : conflictExists st payload.userA payload.userB = false := by
    unfold conflictExists
    cases hfind : findByUserIds st payload.userA payload.userB with
    | none => rfl
    | some r => simp [hnoconf r hfind]
  unfold create
  simp only [if_neg hne, userService_findById_of_mem _ _ ha,
    userService_findById_of_mem _ _ hb, hc, Bool.false_eq_true, if_false, if_pos hs]

/-- Witness for C7: creating directly with FRIENDS fails. -/
theorem create_rejects_invalid_initial_status_witness :
    (("u1" : String) ≠ "u2" ∧ "u1" ∈ sampleUsersState.users ∧ "u2" ∈ sampleUsersState.users ∧
      (∀ r, findByUserIds sampleUsersState "u1" "u2" = some r →
        r.status = RelationshipStatus.AWAY) ∧
      (RelationshipStatus.FRIENDS ≠ RelationshipStatus.REQUEST_USER_A ∧
        RelationshipStatus.FRIENDS ≠ RelationshipStatus.REQUEST_USER_B)) ∧
    create sampleUsersState "u1" ⟨"u1", "u2", .FRIENDS⟩ "r1" =
      (sampleUsersState, .error
        (.badRequest "Relationship status must be REQUEST_USER_A or REQUEST_USER_B")) :=
  ⟨⟨by decide, by decide, by decide, by decide, by decide⟩,
    create_rejects_invalid_initial_status sampleUsersState "u1" ⟨"u1", "u2", .FRIENDS⟩ "r1"
      (by decide) (by decide) (by decide) (by decide) (by decide)⟩

/-! ### C5: swapped-argument creation does not re-map the status -/

/-- C5 counterexample: with users u1 < u2 and the call
`create(requester=u1, userA=u2, userB=u1, status=REQUEST_USER_B)`, the
claim that the stored record preserves u1 as the intended initiator is
false: the stored status is REQUEST_USER_B verbatim, which under the
canonical slots reads as initiated by u2. -/
theorem create_swapped_remap_false :
    ¬ (∀ rec : Relationship,
        (create sampleUsersState "u1" ⟨"u2", "u1", .REQUEST_USER_B⟩ "r1").1.relationships =
          rec :: sampleUsersState.relationships →
        initiatorOf rec = some "u1") := by
  intro hclaim
  have h := hclaim ⟨"r1", "u1", "u2", .REQUEST_USER_B, none, none⟩ (by decide)
  simp [initiatorOf] at h

/-- C5 amended: the swapped-argument creation stores the slots in canonical
order but the status verbatim, so the status tracks the storage slot
identity and the stored record reads as initiated by u2, not by the
intended u1. -/
theorem create_swapped_stores_status_verbatim :
    create sampleUsersState "u1" ⟨"u2", "u1", .REQUEST_USER_B⟩ "r1" =
      ({ sampleUsersState with
          relationships := [⟨"r1", "u1", "u2", .REQUEST_USER_B, none, none⟩] },
        .ok (some ⟨"r1", "u1", "u2", .REQUEST_USER_B, none, none⟩)) ∧
    initiatorOf ⟨"r1", "u1", "u2", .REQUEST_USER_B, none, none⟩ = some "u2" := by
  exact ⟨by decide, by decide⟩

/-! ### C4: blocking never sets blockedAt, so a second block is not rejected -/

/-- C4: the code does not behave as the claim states. The first blockUser
call succeeds but returns a record whose blockedAt is still null, and the
second identical call also succeeds with an ok result instead of failing
with the ValidationError, because nothing ever writes blockedAt. -/
theorem blockUser_second_call_not_rejected :
    (blockUser pendingPairState "u1" ⟨"u1", "u2"⟩).2 =
      .ok (some ⟨"r1", "u1", "u2", .BLOCKED_USER_A, none, none⟩) ∧
    (blockUser pendingPairStateBlockedOnce "u1" ⟨"u1", "u2"⟩).2 =
      .ok (some ⟨"r1", "u1", "u2", .BLOCKED_USER_A, none, none⟩) := by
  exact ⟨by decide, by decide⟩

/-! ### C6: block direction is encoded in the status -/

/-- C6: a successful blockUser on an existing, not-yet-blocked relationship
rewrites the status to BLOCKED_USER_A when the blocking user holds the
canonical userA slot and to BLOCKED_USER_B otherwise, and returns the
rewritten record. -/
theorem blockUser_sets_direction_status
    (st : State) (requestedUser : String) (dto : BlockUserDto) (rel : Relationship)
    (hblocker : dto.blockedBy ∈ st.users)
    (hauth : dto.blockedBy = requestedUser)
    (htarget : dto.targetUser ∈ st.users)
    (hfind : findByUserIds st dto.blockedBy dto.targetUser = some rel)
    (hnb : rel.blockedAt = none)
    (huniq : ∀ r ∈ st.relationships, r.id = rel.id → r = rel) :
    blockUser st requestedUser dto =
      (updateRelById st rel.id (fun r =>
          { r with status :=
              if dto.blockedBy = rel.userA then RelationshipStatus.BLOCKED_USER_A
              else RelationshipStatus.BLOCKED_USER_B }),
        .ok (some { rel with status :=
            if dto.blockedBy = rel.userA then RelationshipStatus.BLOCKED_USER_A
            else RelationshipStatus.BLOCKED_USER_B })) := by
  have hmem := findByUserIds_mem st _ _ rel hfind
  have hfid : findById st rel.id = some rel := findById_of_unique st rel hmem hnb huniq
  unfold blockUser
  simp only [userService_findById_of_mem _ _ hblocker,
    userService_findById_of_mem _ _ htarget, hfind,
    if_neg (not_not_intro hauth), hnb, Option.isSome_none, Bool.false_eq_true, if_false]
  rw [findById_updateRelById st rel.id (fun r =>
    { r with status :=
        if dto.blockedBy = rel.userA then RelationshipStatus.BLOCKED_USER_A
        else RelationshipStatus.BLOCKED_USER_B }) rel hfid (fun r => rfl) (fun r => rfl)]
  rw [hnb]

/-- Witness for C6 at a concrete pending pair blocked by u1. -/
theorem blockUser_sets_direction_status_witness :
    (("u1" : String) ∈ pendingPairState.users ∧ ("u1" : String) = "u1" ∧
      ("u2" : String) ∈ pendingPairState.users ∧
      findByUserIds pendingPairState "u1" "u2" =
        some ⟨"r1", "u1", "u2", .REQUEST_USER_A, none, none⟩ ∧
      Relationship.blockedAt ⟨"r1", "u1", "u2", .REQUEST_USER_A, none, none⟩ = none ∧
      (∀ r ∈ pendingPairState.relationships,
        r.id = Relationship.id ⟨"r1", "u1", "u2", .REQUEST_USER_A, none, none⟩ →
        r = ⟨"r1", "u1", "u2", .REQUEST_USER_A, none, none⟩)) ∧
    blockUser pendingPairState "u1" ⟨"u1", "u2"⟩ =
      (updateRelById pendingPairState
          (Relationship.id ⟨"r1", "u1", "u2", .REQUEST_USER_A, none, none⟩) (fun r =>
          { r with status :=
              if BlockUserDto.blockedBy ⟨"u1", "u2"⟩ =
                  Relationship.userA ⟨"r1", "u1", "u2", .REQUEST_USER_A, none, none⟩ then
                RelationshipStatus.BLOCKED_USER_A
              else RelationshipStatus.BLOCKED_USER_B }),
        .ok (some { (⟨"r1", "u1", "u2", .REQUEST_USER_A, none, none⟩ : Relationship) with
            status :=
              if BlockUserDto.blockedBy ⟨"u1", "u2"⟩ =
                  Relationship.userA ⟨"r1", "u1", "u2", .REQUEST_USER_A, none, none⟩ then
                RelationshipStatus.BLOCKED_USER_A
              else RelationshipStatus.BLOCKED_USER_B })) :=
  ⟨⟨by decide, by decide, by decide, by decide, by decide, by decide⟩,
    blockUser_sets_direction_status pendingPairState "u1" ⟨"u1", "u2"⟩
      ⟨"r1", "u1", "u2", .REQUEST_USER_A, none, none⟩
      (by decide) (by decide) (by decide) (by decide) (by decide) (by decide)⟩

/-! ### C10: a blocked record is invisible to id-based operations -/

/-- C10: when every stored record carrying a given id has a non-null
blockedAt, and such a record does exist in the store, the id-based
operations treat the id as nonexistent: findById yields null and
findMyRelationship, confirmFriendship and update fail with NotFound. -/
theorem blocked_record_invisible
    (st : State) (rid : String) (rel : Relationship) (u cid : String)
    (dto : UpdateRelationshipDto)
    (hmem : rel ∈ st.relationships) (hid : rel.id = rid)
    (hall : ∀ r ∈ st.relationships, r.id = rid → r.blockedAt ≠ none) :
    findById st rid = none ∧
    findMyRelationship st rid u = .error (.notFound "Relationship not found") ∧
    confirmFriendship st u rid cid = (st, .error (.notFound "Relationship not found")) ∧
    update st rid dto u = (st, .error (.notFound "Relationship not found")) := by
  have hfid : findById st rid = none := by
    apply List.find?_eq_none.mpr
    intro r hr
    by_cases h : r.id = rid
    · simp [h, Option.isNone_iff_eq_none, hall r hr h]
    · simp [h]
  refine ⟨hfid, ?_, ?_, ?_⟩
  · simp [findMyRelationship, hfid]
  · simp [confirmFriendship, confirmFriendshipF, hfid]
  · simp [update, hfid]

/-- Two registered users with a blocked record between them. -/
def blockedPairState : State :=
  { users := ["u1", "u2"],
    relationships := [⟨"r1", "u1", "u2", .BLOCKED_USER_A, some 7, none⟩],
    conversations := [], memberships := [], trace := [] }

/-- Witness for C10 at a concrete blocked record. -/
theorem blocked_record_invisible_witness :
    ((⟨"r1", "u1", "u2", .BLOCKED_USER_A, some 7, none⟩ : Relationship) ∈
        blockedPairState.relationships ∧
      Relationship.id ⟨"r1", "u1", "u2", .BLOCKED_USER_A, some 7, none⟩ = "r1" ∧
      (∀ r ∈ blockedPairState.relationships, r.id = "r1" → r.blockedAt ≠ none)) ∧
    (findById blockedPairState "r1" = none ∧
      findMyRelationship blockedPairState "r1" "u1" =
        .error (.notFound "Relationship not found") ∧
      confirmFriendship blockedPairState "u1" "r1" "c1" =
        (blockedPairState, .error (.notFound "Relationship not found")) ∧
      update blockedPairState "r1" ⟨none, none, none⟩ "u1" =
        (blockedPairState, .error (.notFound "Relationship not found"))) :=
  ⟨⟨by decide, by decide, by decide⟩,
    blocked_record_invisible blockedPairState "r1"
      ⟨"r1", "u1", "u2", .BLOCKED_USER_A, some 7, none⟩ "u1" "c1" ⟨none, none, none⟩
      (by decide) (by decide) (by decide)⟩

/-! ### Success-path normal form of confirmFriendship -/

/-- The state after the conversation and both memberships of a successful
confirmFriendship have been created, before the relationship update. -/
def confirmMidState (st : State) (req rid cid : String) (rel : Relationship) : State :=
  { st with
      conversations :=
        ⟨cid, "Private conversation [" ++ rid ++ "]",
          "Private conversation [" ++ rid ++ "]", req, req⟩ :: st.conversations,
      memberships :=
        ⟨rel.userB, cid,
          if rel.userB = req then MembershipRole.HOST else MembershipRole.MEMBER⟩ ::
        ⟨rel.userA, cid,
          if rel.userA = req then MembershipRole.HOST else MembershipRole.MEMBER⟩ ::
        st.memberships,
      trace := st.trace ++
        [Event.conversationCreated cid,
          Event.membershipCreated rel.userA cid
            (if rel.userA = req then MembershipRole.HOST else MembershipRole.MEMBER),
          Event.membershipCreated rel.userB cid
            (if rel.userB = req then MembershipRole.HOST else MembershipRole.MEMBER)] }

/-- The final state of a successful confirmFriendship. -/
def confirmSuccState (st : State) (req rid cid : String) (rel : Relationship) : State :=
  updateRelById (confirmMidState st req rid cid rel) rid (fun r =>
    { r with privateConversation := some cid, status := RelationshipStatus.FRIENDS })

theorem confirmFriendshipF_success_eq
    (fs : FaultSpec) (st : State) (req rid cid : String) (rel : Relationship)
    (hfind : findById st rid = some rel)
    (hst : rel.status ≠ RelationshipStatus.FRIENDS)
    (hcf : fs.convFails = false) (hma : fs.memAFails = false) (hmb : fs.memBFails = false) :
    confirmFriendshipF fs st req rid cid =
      (confirmSuccState st req rid cid rel,
        .ok (findById (confirmSuccState st req rid cid rel) rid)) := by
  simp only [confirmFriendshipF, hfind, if_neg hst, hcf, hma, hmb, Bool.false_eq_true,
    if_false, conversationService_create, membershipService_create, confirmSuccState,
    confirmMidState, updateRelById]
  simp [List.append_assoc]

/-! ### C2: confirmFriendship result and membership records -/

/-- C2: confirmFriendship on a relationship already FRIENDS fails with the
ValidationError; on success (status not FRIENDS, distinct participants, the
requesting user being one of them, and a fresh conversation id) the
returned relationship is FRIENDS with a non-null conversation reference,
and the store holds exactly two membership records for that conversation,
exactly one of them HOST, held by the participant equal to the requesting
user. -/
theorem confirmFriendship_spec
    (st : State) (req rid cid : String) (rel : Relationship)
    (hfind : findById st rid = some rel) :
    (rel.status = RelationshipStatus.FRIENDS →
      confirmFriendship st req rid cid =
        (st, .error (.badRequest "Users are already friends"))) ∧
    (rel.status ≠ RelationshipStatus.FRIENDS →
      rel.userA ≠ rel.userB →
      (req = rel.userA ∨ req = rel.userB) →
      (∀ m ∈ st.memberships, m.conversation ≠ cid) →
      ∃ st2 r2,
        confirmFriendship st req rid cid = (st2, .ok (some r2)) ∧
        r2.status = RelationshipStatus.FRIENDS ∧
        r2.privateConversation = some cid ∧
        (st2.memberships.filter (fun m => decide (m.conversation = cid))).length = 2 ∧
        (st2.memberships.filter (fun m =>
            decide (m.conversation = cid) &&
            decide (m.role = MembershipRole.HOST))).length = 1 ∧
        (∀ m ∈ st2.memberships, m.conversation = cid → m.role = MembershipRole.HOST →
          m.user = req)) := by
  constructor
  · intro hst
    simp [confirmFriendship, confirmFriendshipF, hfind, hst]
  · intro hst hAB hreq hfresh
    have hmid : findById (confirmMidState st req rid cid rel) rid = some rel := hfind
    have hres : findById (confirmSuccState st req rid cid rel) rid =
        some { rel with
          privateConversation := some cid, status := RelationshipStatus.FRIENDS } :=
      findById_updateRelById (confirmMidState st req rid cid rel) rid
        (fun r => { r with
          privateConversation := some cid, status := RelationshipStatus.FRIENDS })
        rel hmid (fun r => rfl) (fun r => rfl)
    refine ⟨confirmSuccState st req rid cid rel,
      { rel with privateConversation := some cid, status := RelationshipStatus.FRIENDS },
      ?_, rfl, rfl, ?_, ?_, ?_⟩
    · rw [confirmFriendship, confirmFriendshipF_success_eq noFaults st req rid cid rel
        hfind hst rfl rfl rfl, hres]
    · have hnil : st.memberships.filter (fun m => decide (m.conversation = cid)) = [] :=
        List.filter_eq_nil_iff.mpr (fun m hm => by simp [hfresh m hm])
      have hmems : (confirmSuccState st req rid cid rel).memberships =
          ⟨rel.userB, cid,
            if rel.userB = req then MembershipRole.HOST else MembershipRole.MEMBER⟩ ::
          ⟨rel.userA, cid,
            if rel.userA = req then MembershipRole.HOST else MembershipRole.MEMBER⟩ ::
          st.memberships := rfl
      rw [hmems]
      simp [List.filter_cons, hnil]
    · have hnil : st.memberships.filter (fun m =>
          decide (m.conversation = cid) && decide (m.role = MembershipRole.HOST)) = [] :=
        List.filter_eq_nil_iff.mpr (fun m hm => by simp [hfresh m hm])
      have hmems : (confirmSuccState st req rid cid rel).memberships =
          ⟨rel.userB, cid,
            if rel.userB = req then MembershipRole.HOST else MembershipRole.MEMBER⟩ ::
          ⟨rel.userA, cid,
            if rel.userA = req then MembershipRole.HOST else MembershipRole.MEMBER⟩ ::
          st.memberships := rfl
      rw [hmems]
      rcases hreq with hA | hB
      · have ha : rel.userA = req := hA.symm
        have hb : rel.userB ≠ req := fun h => hAB (ha.trans h.symm)
        simp [List.filter_cons, ha, hb, hnil]
      · have hb : rel.userB = req := hB.symm
        have ha : rel.userA ≠ req := fun h => hAB (h.trans hb.symm)
        simp [List.filter_cons, ha, hb, hnil]
    · intro m hm hconv hrole
      have hmems : (confirmSuccState st req rid cid rel).memberships =
          ⟨rel.userB, cid,
            if rel.userB = req then MembershipRole.HOST else MembershipRole.MEMBER⟩ ::
          ⟨rel.userA, cid,
            if rel.userA = req then MembershipRole.HOST else MembershipRole.MEMBER⟩ ::
          st.memberships := rfl
      rw [hmems] at hm
      rcases List.mem_cons.mp hm with h | h
      · subst h
        by_cases hb : rel.userB = req
        · exact hb
        · rw [if_neg hb] at hrole
          cases hrole
      · rcases List.mem_cons.mp h with h2 | h2
        · subst h2
          by_cases ha : rel.userA = req
          · exact ha
          · rw [if_neg ha] at hrole
            cases hrole
        · exact absurd hconv (hfresh m h2)

/-- Witness for C2 at a concrete pending pair confirmed by u1. -/
theorem confirmFriendship_spec_witness :
    findById pendingPairState "r1" =
      some ⟨"r1", "u1", "u2", .REQUEST_USER_A, none, none⟩ ∧
    ((RelationshipStatus.REQUEST_USER_A = RelationshipStatus.FRIENDS →
        confirmFriendship pendingPairState "u1" "r1" "c1" =
          (pendingPairState, .error (.badRequest "Users are already friends"))) ∧
      (RelationshipStatus.REQUEST_USER_A ≠ RelationshipStatus.FRIENDS →
        ("u1" : String) ≠ "u2" →
        (("u1" : String) = "u1" ∨ ("u1" : String) = "u2") →
        (∀ m ∈ pendingPairState.memberships, m.conversation ≠ "c1") →
        ∃ st2 r2,
          confirmFriendship pendingPairState "u1" "r1" "c1" = (st2, .ok (some r2)) ∧
          r2.status = RelationshipStatus.FRIENDS ∧
          r2.privateConversation = some "c1" ∧
          (st2.memberships.filter (fun m => decide (m.conversation = "c1"))).length = 2 ∧
          (st2.memberships.filter (fun m =>
              decide (m.conversation = "c1") &&
              decide (m.role = MembershipRole.HOST))).length = 1 ∧
          (∀ m ∈ st2.memberships, m.conversation = "c1" →
            m.role = MembershipRole.HOST → m.user = "u1"))) :=
  ⟨by decide,
    confirmFriendship_spec pendingPairState "u1" "r1" "c1"
      ⟨"r1", "u1", "u2", .REQUEST_USER_A, none, none⟩ (by decide)⟩

/-! ### C8: order of the confirmFriendship side effects -/

/-- C8: in a confirmFriendship run past its guards, the side effects occur
as conversation first, then the two memberships, then the relationship
update, and a failing step leaves exactly the effects of the steps before
it: a conversation failure performs nothing, a first-membership failure
leaves only the conversation event, a second-membership failure leaves the
conversation and one membership event, and the fault-free run records all
four events in order and succeeds. -/
theorem confirmFriendship_effect_order
    (fs : FaultSpec) (st : State) (req rid cid : String) (rel : Relationship)
    (hfind : findById st rid = some rel)
    (hst : rel.status ≠ RelationshipStatus.FRIENDS) :
    (fs.convFails = true →
      confirmFriendshipF fs st req rid cid =
        (st, .error (.internalServerError "Failed to update relationship"))) ∧
    (fs.convFails = false → fs.memAFails = true →
      (confirmFriendshipF fs st req rid cid).1.trace =
        st.trace ++ [Event.conversationCreated cid] ∧
      (confirmFriendshipF fs st req rid cid).2 =
        .error (.internalServerError "Failed to update relationship")) ∧
    (fs.convFails = false → fs.memAFails = false → fs.memBFails = true →
      (confirmFriendshipF fs st req rid cid).1.trace =
        st.trace ++ [Event.conversationCreated cid,
          Event.membershipCreated rel.userA cid
            (if rel.userA = req then MembershipRole.HOST else MembershipRole.MEMBER)] ∧
      (confirmFriendshipF fs st req rid cid).2 =
        .error (.internalServerError "Failed to update relationship")) ∧
    (fs.convFails = false → fs.memAFails = false → fs.memBFails = false →
      (confirmFriendshipF fs st req rid cid).1.trace =
        st.trace ++ [Event.conversationCreated cid,
          Event.membershipCreated rel.userA cid
            (if rel.userA = req then MembershipRole.HOST else MembershipRole.MEMBER),
          Event.membershipCreated rel.userB cid
            (if rel.userB = req then MembershipRole.HOST else MembershipRole.MEMBER),
          Event.relationshipUpdated rid] ∧
      ∃ r2, (confirmFriendshipF fs st req rid cid).2 = .ok r2) := by
  refine ⟨?_, ?_, ?_, ?_⟩
  · intro hcf
    simp [confirmFriendshipF, hfind, hst, hcf]
  · intro hcf hma
    simp [confirmFriendshipF, hfind, hst, hcf, hma, conversationService_create]
  · intro hcf hma hmb
    simp [confirmFriendshipF, hfind, hst, hcf, hma, hmb, conversationService_create,
      membershipService_create, List.append_assoc]
  · intro hcf hma hmb
    rw [confirmFriendshipF_success_eq fs st req rid cid rel hfind hst hcf hma hmb]
    constructor
    · simp [confirmSuccState, updateRelById, confirmMidState, List.append_assoc]
    · exact ⟨_, rfl⟩

/-- Witness for C8 with the fault-free fault specification at a concrete
pending pair. -/
theorem confirmFriendship_effect_order_witness :
    (findById pendingPairState "r1" =
        some ⟨"r1", "u1", "u2", .REQUEST_USER_A, none, none⟩ ∧
      RelationshipStatus.REQUEST_USER_A ≠ RelationshipStatus.FRIENDS) ∧
    ((false = true →
        confirmFriendshipF ⟨false, false, false⟩ pendingPairState "u1" "r1" "c1" =
          (pendingPairState,
            .error (.internalServerError "Failed to update relationship"))) ∧
      (false = false → false = true →
        (confirmFriendshipF ⟨false, false, false⟩ pendingPairState "u1" "r1" "c1").1.trace =
          pendingPairState.trace ++ [Event.conversationCreated "c1"] ∧
        (confirmFriendshipF ⟨false, false, false⟩ pendingPairState "u1" "r1" "c1").2 =
          .error (.internalServerError "Failed to update relationship")) ∧
      (false = false → false = false → false = true →
        (confirmFriendshipF ⟨false, false, false⟩ pendingPairState "u1" "r1" "c1").1.trace =
          pendingPairState.trace ++ [Event.conversationCreated "c1",
            Event.membershipCreated "u1" "c1" MembershipRole.HOST] ∧
        (confirmFriendshipF ⟨false, false, false⟩ pendingPairState "u1" "r1" "c1").2 =
          .error (.internalServerError "Failed to update relationship")) ∧
      (false = false → false = false → false = false →
        (confirmFriendshipF ⟨false, false, false⟩ pendingPairState "u1" "r1" "c1").1.trace =
          pendingPairState.trace ++ [Event.conversationCreated "c1",
            Event.membershipCreated "u1" "c1" MembershipRole.HOST,
            Event.membershipCreated "u2" "c1" MembershipRole.MEMBER,
            Event.relationshipUpdated "r1"] ∧
        ∃ r2, (confirmFriendshipF ⟨false, false, false⟩
          pendingPairState "u1" "r1" "c1").2 = .ok r2)) :=
  ⟨⟨by decide, by decide⟩,
    confirmFriendship_effect_order ⟨false, false, false⟩ pendingPairState "u1" "r1" "c1"
      ⟨"r1", "u1", "u2", .REQUEST_USER_A, none, none⟩ (by decide) (by decide)⟩

/-! ### C9: the status filter of findAll is case-insensitive -/

theorem mem_insertSorted (le : Relationship → Relationship → Bool)
    (x a : Relationship) (l : List Relationship) :
    a ∈ insertSorted le x l ↔ a = x ∨ a ∈ l := by
  induction l with
  | nil => simp [insertSorted]
  | cons y ys ih =>
    simp only [insertSorted]
    split
    · simp [List.mem_cons]
    · simp only [List.mem_cons, ih]
      tauto

theorem mem_sortRels (le : Relationship → Relationship → Bool)
    (a : Relationship) (l : List Relationship) :
    a ∈ sortRels le l ↔ a ∈ l := by
  induction l with
  | nil => simp [sortRels]
  | cons x xs ih =>
    simp only [sortRels, mem_insertSorted, ih, List.mem_cons]

/-- C9: for every participant, page and sort arguments, two status filters
with the same uppercasing (in particular a lowercase spelling and its
uppercase form) produce identical findAll results, and every returned
record has the participant in one of the two user slots and a null
blockedAt. -/
theorem findAll_status_case_insensitive
    (st : State) (userId : String) (page size : Nat) (sortBy orderBy : String)
    (s1 s2 : String) (h : strToUpper s1 = strToUpper s2) :
    findAll st userId page size sortBy orderBy s1 =
      findAll st userId page size sortBy orderBy s2 ∧
    ∀ r ∈ (findAll st userId page size sortBy orderBy s1).data,
      (r.userA = userId ∨ r.userB = userId) ∧ r.blockedAt = none := by
  constructor
  · simp only [findAll, h]
  · intro r hr
    simp only [findAll] at hr
    have h3 := List.drop_subset _ _ (List.take_subset _ _ hr)
    have h4 := (mem_sortRels _ _ _).mp h3
    have h5 := (List.mem_filter.mp h4).2
    simp only [Bool.and_eq_true, Bool.or_eq_true, decide_eq_true_eq,
      Option.isNone_iff_eq_none] at h5
    exact ⟨h5.1.1, h5.2⟩

/-- Three users with two visible FRIENDS records and one blocked record. -/
def friendsListState : State :=
  { users := ["u1", "u2", "u3"],
    relationships := [⟨"r1", "u1", "u2", .FRIENDS, none, none⟩,
                      ⟨"r2", "u1", "u3", .FRIENDS, some 5, none⟩,
                      ⟨"r3", "u2", "u3", .FRIENDS, none, none⟩],
    conversations := [], memberships := [], trace := [] }

/-- Witness for C9 at a concrete listing with the lowercase filter. -/
theorem findAll_status_case_insensitive_witness :
    strToUpper "friends" = strToUpper "FRIENDS" ∧
    (findAll friendsListState "u1" 1 10 "_id" "asc" "friends" =
        findAll friendsListState "u1" 1 10 "_id" "asc" "FRIENDS" ∧
      ∀ r ∈ (findAll friendsListState "u1" 1 10 "_id" "asc" "friends").data,
        (r.userA = "u1" ∨ r.userB = "u1") ∧ r.blockedAt = none) :=
  ⟨by decide,
    findAll_status_case_insensitive friendsListState "u1" 1 10 "_id" "asc"
      "friends" "FRIENDS" (by decide)⟩

end RelationshipSpec
